import Mathlib

/-! xpand: the command-line entry point `cmd/xpand/main.go`.

A shallow embedding of the single Go source file of the repository.  The process is a
`World`: the three package-level build variables, `os.Args`, the bytes written to standard
output so far, and the control status.  Every statement of `main` is a function
`World → World` that does nothing once the process has stopped, so that what follows
`os.Exit(0)` in the source text is really not executed.

Go strings are modelled by Lean `String`s; the literals of the source are ASCII.
Write errors on standard output are ignored by the source and are not modelled.
-/

namespace Xpand

/-! ## Process state -/

/-- Control status of the process: still inside `main`, stopped by `os.Exit code`, or
aborted by a run-time panic. -/
inductive Status where
  | running
  | exited (code : Int)
  | panicked
  deriving DecidableEq

/-- The package-level variables `version`, `commit`, `date` (lines 9-13), whose initial
values the build may replace. -/
structure Build where
  version : String
  commit : String
  date : String
  deriving DecidableEq

/-- The initialisers written in the source: the values when the build injects nothing. -/
def defaultBuild : Build :=
  { version := "dev", commit := "none", date := "unknown" }

/-- The whole observable state of a run. `osArgs` is `os.Args`: the program name first, then
the arguments. -/
structure World where
  version : String
  commit : String
  date : String
  osArgs : List String
  stdout : String
  status : Status
  deriving DecidableEq

/-- The process at entry to `main`: nothing written, running. -/
def start (b : Build) (osArgs : List String) : World :=
  { version := b.version, commit := b.commit, date := b.date,
    osArgs := osArgs, stdout := "", status := Status.running }

/-- Exit code seen by the parent process: `0` when `main` returns, the argument of
`os.Exit` when that was called, `2` after a panic (the Go runtime's code). -/
def exitCode (w : World) : Int :=
  match w.status with
  | Status.running => 0
  | Status.exited c => c
  | Status.panicked => 2

/-! ## The library calls used by `main` -/

/-- Formatting of `fmt.Sprintf` for string operands, on characters. Interpreted are the
verb `%s` (the next operand verbatim, or `%!s(MISSING)` when the operands are used up),
`%%`, and literal text, which is all the format string of `main` contains; operands left
over are reported the way the library does. Any other verb character is rendered in the
library's bad-verb form; flags, widths and the verbs `%v`, `%q`, `%x` are outside the
model. -/
def sprintfChars : List Char → List String → List Char
  | [], [] => []
  | [], a :: as =>
    ("%!(EXTRA " ++ ", ".intercalate ((a :: as).map (fun s => "string=" ++ s)) ++ ")").data
  | [c], as =>
    if c = '%' then "%!(NOVERB)".data ++ sprintfChars [] as
    else c :: sprintfChars [] as
  | c :: d :: rest, as =>
    if c = '%' then
      if d = '%' then '%' :: sprintfChars rest as
      else
        match as with
        | a :: as2 =>
          if d = 's' then a.data ++ sprintfChars rest as2
          else ['%', '!', d, '('] ++ "string=".data ++ a.data ++ [')'] ++ sprintfChars rest as2
        | [] => ['%', '!', d] ++ "(MISSING)".data ++ sprintfChars rest []
    else c :: sprintfChars (d :: rest) as

/-- Call `fmt.Printf(format, a...)`: appends the formatted text to standard output. -/
def fmtPrintf (format : String) (a : List String) (w : World) : World :=
  match w.status with
  | Status.running => { w with stdout := w.stdout ++ String.mk (sprintfChars format.data a) }
  | _ => w

/-- Call `fmt.Println(a...)`: the operands separated by one space, then a newline. -/
def fmtPrintln (a : List String) (w : World) : World :=
  match w.status with
  | Status.running => { w with stdout := w.stdout ++ " ".intercalate a ++ "\n" }
  | _ => w

/-- Call `os.Exit(code)`: the process stops at once with that code. -/
def osExit (code : Int) (w : World) : World :=
  match w.status with
  | Status.running => { w with status := Status.exited code }
  | _ => w

/-- Run-time panic: the process stops; nothing goes to standard output. -/
def goPanic (w : World) : World :=
  match w.status with
  | Status.running => { w with status := Status.panicked }
  | _ => w

/-- Index expression `xs[i]` on a slice of strings; `none` is "index out of range". -/
def index (xs : List String) (i : Nat) : Option String :=
  if i < xs.length then xs.get? i else none

/-! ## `main` -/

/-- The condition of line 16, `len(os.Args) > 1 && os.Args[1] == "--version"`, with the
short-circuit of `&&`; `none` when evaluating it panics. -/
def versionRequested (w : World) : Option Bool :=
  if w.osArgs.length > 1 then
    match index w.osArgs 1 with
    | some a => some (a == "--version")
    | none => none
  else some false

/-- Function `main` of `cmd/xpand/main.go`, statement by statement. -/
def main (w : World) : World :=
  let w1 :=
    match versionRequested w with
    | none => goPanic w
    | some true =>
      osExit 0 (fmtPrintf "xpand %s (commit: %s, built: %s)\n" [w.version, w.commit, w.date] w)
    | some false => w
  let w2 := fmtPrintln ["xpand - Expand application intent into explicit Kubernetes resources"] w1
  let w3 := fmtPrintln [] w2
  let w4 := fmtPrintln ["Status: Pre-alpha (design phase)"] w3
  let w5 := fmtPrintln ["See: https://github.com/davetashner/xpand"] w4
  let w6 := fmtPrintln [] w5
  fmtPrintln ["Commands will be implemented after ADRs are decided."] w6

/-- A run of the program built with `b`, started as `prog` with the argument list `args`
(program name excluded). -/
def run (b : Build) (prog : String) (args : List String) : World :=
  main (start b (prog :: args))

/-! ## The texts as the specification words them -/

/-- The version line in the specification's words:
`xpand <version> (commit: <commit>, built: <date>)` and a newline. -/
def specVersionLine (b : Build) : String :=
  "xpand " ++ b.version ++ " (commit: " ++ b.commit ++ ", built: " ++ b.date ++ ")\n"

/-- The six-line banner in the specification's words. -/
def specBanner : String :=
  "xpand - Expand application intent into explicit Kubernetes resources\n\nStatus: Pre-alpha (design phase)\nSee: https://github.com/davetashner/xpand\n\nCommands will be implemented after ADRs are decided.\n"

/-! ## Auxiliary facts -/

theorem sprintfChars_versionFormat (v c d : String) :
    String.mk (sprintfChars "xpand %s (commit: %s, built: %s)\n".data [v, c, d])
      = "xpand " ++ v ++ " (commit: " ++ c ++ ", built: " ++ d ++ ")\n" := by
  apply String.ext
  simp [sprintfChars]

theorem bannerLines_eq (s : String) :
    s ++ " ".intercalate ["xpand - Expand application intent into explicit Kubernetes resources"]
        ++ "\n" ++ " ".intercalate [] ++ "\n"
        ++ " ".intercalate ["Status: Pre-alpha (design phase)"] ++ "\n"
        ++ " ".intercalate ["See: https://github.com/davetashner/xpand"] ++ "\n"
        ++ " ".intercalate [] ++ "\n"
        ++ " ".intercalate ["Commands will be implemented after ADRs are decided."] ++ "\n"
      = s ++ specBanner := by
  simp only [String.append_assoc]
  exact congrArg (fun t => s ++ t) rfl

theorem fmtPrintln_running (a : List String) (w : World) (h : w.status = Status.running) :
    fmtPrintln a w = { w with stdout := w.stdout ++ " ".intercalate a ++ "\n" } := by
  simp [fmtPrintln, h]

theorem fmtPrintf_running (format : String) (a : List String) (w : World)
    (h : w.status = Status.running) :
    fmtPrintf format a w
      = { w with stdout := w.stdout ++ String.mk (sprintfChars format.data a) } := by
  simp only [fmtPrintf, h]

theorem osExit_running (code : Int) (w : World) (h : w.status = Status.running) :
    osExit code w = { w with status := Status.exited code } := by
  simp only [osExit, h]

theorem fmtPrintln_stopped (a : List String) (w : World)
    (h : w.status ≠ Status.running) : fmtPrintln a w = w := by
  unfold fmtPrintln
  split
  · contradiction
  · rfl

/-- The path of `main` when the condition of line 16 is false: the six `Println` calls, then
`main` returns. -/
theorem main_banner (w : World) (hr : w.status = Status.running)
    (hc : versionRequested w = some false) :
    main w = { w with stdout := w.stdout ++ specBanner } := by
  simp only [main, hc]
  simp only [fmtPrintln_running, hr, bannerLines_eq]

/-- The path of `main` when the condition of line 16 is true: `Printf`, then `os.Exit(0)`;
the `Println` calls after it find the process stopped. -/
theorem main_version (w : World) (hr : w.status = Status.running)
    (hc : versionRequested w = some true) :
    main w = { w with
      stdout := w.stdout ++ specVersionLine
        { version := w.version, commit := w.commit, date := w.date },
      status := Status.exited 0 } := by
  simp only [main, hc]
  rw [fmtPrintf_running _ _ w hr, sprintfChars_versionFormat]
  simp only [osExit_running, hr, specVersionLine]
  simp only [fmtPrintln_stopped, ne_eq, reduceCtorEq, not_false_eq_true]

theorem versionRequested_start (b : Build) (prog a : String) (rest : List String) :
    versionRequested (start b (prog :: a :: rest)) = some (a == "--version") := by
  simp [versionRequested, start, index]

theorem versionRequested_short (b : Build) (osArgs : List String) (h : osArgs.length ≤ 1) :
    versionRequested (start b osArgs) = some false := by
  simp [versionRequested, start, h]

/-- The run on `--version` as first argument: the version line, then `os.Exit(0)`. -/
theorem run_versionFlag (b : Build) (prog : String) (rest : List String) :
    run b prog ("--version" :: rest)
      = { version := b.version, commit := b.commit, date := b.date,
          osArgs := prog :: "--version" :: rest,
          stdout := specVersionLine b, status := Status.exited 0 } := by
  rw [run, main_version _ rfl (by simp [versionRequested_start])]
  simp [start]

/-- The run without arguments: all six `Println` calls, then `main` returns. -/
theorem run_noArgs (b : Build) (prog : String) :
    run b prog []
      = { version := b.version, commit := b.commit, date := b.date,
          osArgs := [prog], stdout := specBanner, status := Status.running } := by
  rw [run, main_banner _ rfl (versionRequested_short b [prog] (by simp))]
  simp [start]

/-- The run on a first argument other than `--version`. -/
theorem run_otherArg (b : Build) (prog a : String) (rest : List String)
    (h : a ≠ "--version") :
    run b prog (a :: rest)
      = { version := b.version, commit := b.commit, date := b.date,
          osArgs := prog :: a :: rest, stdout := specBanner, status := Status.running } := by
  rw [run, main_banner _ rfl (by simp [versionRequested_start, h])]
  simp [start]

/-- The process after `main`, whatever `os.Args` holds (the empty slice included): either
the banner path or the version path was taken. -/
theorem main_start_cases (b : Build) (osArgs : List String) :
    (versionRequested (start b osArgs) = some false
        ∧ main (start b osArgs) = { start b osArgs with stdout := specBanner })
      ∨ (versionRequested (start b osArgs) = some true
        ∧ main (start b osArgs)
            = { start b osArgs with stdout := specVersionLine b, status := Status.exited 0 }) := by
  cases hc : versionRequested (start b osArgs) with
  | none =>
    exfalso
    match osArgs, hc with
    | [], hc => simp [versionRequested_short] at hc
    | [_], hc => simp [versionRequested_short] at hc
    | _ :: _ :: _, hc => simp [versionRequested_start] at hc
  | some c =>
    cases c with
    | false =>
      left
      refine ⟨rfl, ?_⟩
      rw [main_banner _ rfl hc]
      simp [start]
    | true =>
      right
      refine ⟨rfl, ?_⟩
      rw [main_version _ rfl hc]
      simp [start]

/-- The version line ends in `)` and a newline, the banner in `.` and a newline. -/
theorem specVersionLine_ne_specBanner (b : Build) : specVersionLine b ≠ specBanner := by
  intro h
  have hb : specBanner
      = "xpand - Expand application intent into explicit Kubernetes resources\n\nStatus: Pre-alpha (design phase)\nSee: https://github.com/davetashner/xpand\n\nCommands will be implemented after ADRs are decided"
        ++ ".\n" := rfl
  rw [hb, specVersionLine] at h
  have hd := congrArg String.data h
  rw [String.data_append, String.data_append] at hd
  have ht := List.append_inj_right' hd rfl
  exact absurd ht (by decide)

/-! ## The claims -/

/-- C1: when the first argument is exactly `--version`, for every build triple the whole
standard output is the one line `xpand <version> (commit: <commit>, built: <date>)` with a
newline, the three values verbatim; the banner is not appended; the process stops through
`os.Exit(0)` and the exit code is 0. -/
theorem c1_version_line (b : Build) (prog : String) (rest : List String) :
    (run b prog ("--version" :: rest)).stdout
        = "xpand " ++ b.version ++ " (commit: " ++ b.commit ++ ", built: " ++ b.date ++ ")\n"
      ∧ (run b prog ("--version" :: rest)).status = Status.exited 0
      ∧ exitCode (run b prog ("--version" :: rest)) = 0 := by
  rw [run_versionFlag]
  exact ⟨rfl, rfl, rfl⟩

/-- C2: with no arguments, for every build triple, standard output is byte for byte the
six-line banner (lines 2 and 5 empty, every line ended by a newline) and the exit code
is 0. -/
theorem c2_banner_no_args (b : Build) (prog : String) :
    (run b prog []).stdout
        = "xpand - Expand application intent into explicit Kubernetes resources\n\nStatus: Pre-alpha (design phase)\nSee: https://github.com/davetashner/xpand\n\nCommands will be implemented after ADRs are decided.\n"
      ∧ exitCode (run b prog []) = 0 := by
  rw [run_noArgs]
  exact ⟨rfl, rfl⟩

/-- C3: when the first argument is any string other than exactly `--version`, standard
output is the output of the run without arguments (the banner) and the exit code is 0. -/
theorem c3_other_first_arg (b : Build) (prog a : String) (rest : List String)
    (h : a ≠ "--version") :
    (run b prog (a :: rest)).stdout = (run b prog []).stdout
      ∧ (run b prog (a :: rest)).stdout = specBanner
      ∧ exitCode (run b prog (a :: rest)) = 0 := by
  rw [run_otherArg b prog a rest h, run_noArgs]
  exact ⟨rfl, rfl, rfl⟩

/-- C3 at the strings the claim lists: `help`, `-v`, `status`, the empty string, and the
near-misses `--Version` and `--version` followed by a blank. -/
theorem c3_other_first_arg_witness :
    (("help" ≠ "--version" ∧ "-v" ≠ "--version" ∧ "status" ≠ "--version" ∧ "" ≠ "--version"
        ∧ "--Version" ≠ "--version" ∧ "--version " ≠ "--version")
      ∧ (run defaultBuild "xpand" ["help"]).stdout = (run defaultBuild "xpand" []).stdout
      ∧ (run defaultBuild "xpand" ["-v", "x"]).stdout = (run defaultBuild "xpand" []).stdout
      ∧ (run defaultBuild "xpand" ["status"]).stdout = (run defaultBuild "xpand" []).stdout
      ∧ (run defaultBuild "xpand" [""]).stdout = (run defaultBuild "xpand" []).stdout
      ∧ (run defaultBuild "xpand" ["--Version"]).stdout = (run defaultBuild "xpand" []).stdout
      ∧ (run defaultBuild "xpand" ["--version "]).stdout = (run defaultBuild "xpand" []).stdout)
      ∧ exitCode (run defaultBuild "xpand" ["--version "]) = 0 :=
  ⟨⟨⟨by decide, by decide, by decide, by decide, by decide, by decide⟩,
     (c3_other_first_arg defaultBuild "xpand" "help" [] (by decide)).1,
     (c3_other_first_arg defaultBuild "xpand" "-v" ["x"] (by decide)).1,
     (c3_other_first_arg defaultBuild "xpand" "status" [] (by decide)).1,
     (c3_other_first_arg defaultBuild "xpand" "" [] (by decide)).1,
     (c3_other_first_arg defaultBuild "xpand" "--Version" [] (by decide)).1,
     (c3_other_first_arg defaultBuild "xpand" "--version " [] (by decide)).1⟩,
   (c3_other_first_arg defaultBuild "xpand" "--version " [] (by decide)).2.2⟩

/-- C4: only the first argument is inspected. Two argument lists with the same first
argument give the same standard output and the same exit code; `--version` followed by
`extra` prints what `--version` alone prints; and `--version` at a later position, behind a
first argument that is something else, gives the banner and not the version line. -/
theorem c4_only_first_arg (b : Build) (prog a : String) (rest rest2 pre post : List String) :
    ((run b prog (a :: rest)).stdout = (run b prog (a :: rest2)).stdout
        ∧ exitCode (run b prog (a :: rest)) = exitCode (run b prog (a :: rest2)))
      ∧ (run b prog ["--version", "extra"]).stdout = (run b prog ["--version"]).stdout
      ∧ (a ≠ "--version" →
          (run b prog (a :: (pre ++ "--version" :: post))).stdout = specBanner
            ∧ (run b prog (a :: (pre ++ "--version" :: post))).stdout ≠ specVersionLine b) := by
  refine ⟨?_, ?_, ?_⟩
  · by_cases h : a = "--version"
    · subst h
      rw [run_versionFlag, run_versionFlag]
      exact ⟨rfl, rfl⟩
    · rw [run_otherArg b prog a rest h, run_otherArg b prog a rest2 h]
      exact ⟨rfl, rfl⟩
  · rw [run_versionFlag, run_versionFlag]
  · intro h
    rw [run_otherArg b prog a _ h]
    exact ⟨rfl, fun e => specVersionLine_ne_specBanner b e.symm⟩

/-- C4 at `status` followed by `--version`: the banner, not the version line. -/
theorem c4_only_first_arg_witness :
    "status" ≠ "--version"
      ∧ (run defaultBuild "xpand" ["status", "--version"]).stdout = specBanner
      ∧ (run defaultBuild "xpand" ["status", "--version"]).stdout
          ≠ specVersionLine defaultBuild :=
  ⟨by decide,
   (c4_only_first_arg defaultBuild "xpand" "status" [] [] [] []).2.2 (by decide)⟩

/-- C5: unconditional success. For every content of `os.Args` (the empty slice, a lone
program name, any arguments) and every build triple, the condition of line 16 evaluates
without an out-of-range index, the process does not panic, and the exit code is 0. -/
theorem c5_always_exit_zero (b : Build) (osArgs : List String) :
    exitCode (main (start b osArgs)) = 0
      ∧ (main (start b osArgs)).status ≠ Status.panicked
      ∧ versionRequested (start b osArgs) ≠ none := by
  rcases main_start_cases b osArgs with ⟨hc, hm⟩ | ⟨hc, hm⟩
  · rw [hm, hc]
    exact ⟨rfl, by simp [start], by simp⟩
  · rw [hm, hc]
    exact ⟨rfl, by simp, by simp⟩

/-- C6: the initialisers in the source are `dev`, `none`, `unknown`, and with them a run
whose first argument is `--version` prints exactly
`xpand dev (commit: none, built: unknown)` and a newline. -/
theorem c6_default_version_line (prog : String) (rest : List String) :
    (defaultBuild.version = "dev" ∧ defaultBuild.commit = "none"
        ∧ defaultBuild.date = "unknown")
      ∧ (run defaultBuild prog ("--version" :: rest)).stdout
          = "xpand dev (commit: none, built: unknown)\n" := by
  rw [run_versionFlag]
  exact ⟨⟨rfl, rfl, rfl⟩, rfl⟩

/-- C7: determinism. Standard output and exit code are a function of the argument list and
the build triple alone: two runs with the same arguments and the same build values agree in
both, whatever else differs at start (the program name in `os.Args[0]`). -/
theorem c7_deterministic (b : Build) (prog prog2 : String) (args : List String) :
    (run b prog args).stdout = (run b prog2 args).stdout
      ∧ exitCode (run b prog args) = exitCode (run b prog2 args) := by
  match args with
  | [] =>
    rw [run_noArgs, run_noArgs]
    exact ⟨rfl, rfl⟩
  | a :: rest =>
    by_cases h : a = "--version"
    · subst h
      rw [run_versionFlag, run_versionFlag]
      exact ⟨rfl, rfl⟩
    · rw [run_otherArg b prog a rest h, run_otherArg b prog2 a rest h]
      exact ⟨rfl, rfl⟩

/-- C8, as stated, fails: built with an empty `version` the program runs all the same; the
value read at entry has length 0 and the version line carries the empty substitution. -/
theorem c8_nonempty_counterexample :
    ¬ (1 ≤ (start { version := "", commit := "none", date := "unknown" }
              ["xpand", "--version"]).version.length)
      ∧ (run { version := "", commit := "none", date := "unknown" } "xpand"
            ["--version"]).stdout = "xpand  (commit: none, built: unknown)\n"
      ∧ exitCode (run { version := "", commit := "none", date := "unknown" } "xpand"
            ["--version"]) = 0 := by
  refine ⟨by decide, ?_, ?_⟩
  · rw [run_versionFlag]
    rfl
  · rw [run_versionFlag]
    rfl

/-- C8, amended: the program never mutates the three build values (after `main` they are
what they were at entry, for every build triple and every `os.Args`), and the values the
source initialises them with, used when nothing is injected, are non-empty. Nothing in the
program requires injected values to be non-empty. -/
theorem c8_build_values_unchanged (b : Build) (osArgs : List String) :
    ((main (start b osArgs)).version = b.version
        ∧ (main (start b osArgs)).commit = b.commit
        ∧ (main (start b osArgs)).date = b.date)
      ∧ (1 ≤ defaultBuild.version.length ∧ 1 ≤ defaultBuild.commit.length
        ∧ 1 ≤ defaultBuild.date.length) := by
  refine ⟨?_, by decide, by decide, by decide⟩
  rcases main_start_cases b osArgs with ⟨_, hm⟩ | ⟨_, hm⟩
  · rw [hm]
    exact ⟨rfl, rfl, rfl⟩
  · rw [hm]
    exact ⟨rfl, rfl, rfl⟩

/-- C9: the banner does not depend on build provenance. When the argument list is empty or
its first argument is not `--version`, two builds give the same standard output. -/
theorem c9_banner_build_independent (b b2 : Build) (prog : String) (args : List String)
    (h : args.head? ≠ some "--version") :
    (run b prog args).stdout = (run b2 prog args).stdout := by
  match args, h with
  | [], _ => rw [run_noArgs, run_noArgs]
  | a :: rest, h =>
    have ha : a ≠ "--version" := fun e => h (by simp [e])
    rw [run_otherArg b prog a rest ha, run_otherArg b2 prog a rest ha]

/-- C9 at the default build against a release build, for the empty argument list and for
`status`. -/
theorem c9_banner_build_independent_witness :
    (([] : List String).head? ≠ some "--version" ∧ ["status"].head? ≠ some "--version")
      ∧ (run defaultBuild "xpand" []).stdout
          = (run { version := "1.2.3", commit := "abc123", date := "2024-01-01" } "xpand"
              []).stdout
      ∧ (run defaultBuild "xpand" ["status"]).stdout
          = (run { version := "1.2.3", commit := "abc123", date := "2024-01-01" } "xpand"
              ["status"]).stdout :=
  ⟨⟨by decide, by decide⟩,
   c9_banner_build_independent defaultBuild
     { version := "1.2.3", commit := "abc123", date := "2024-01-01" } "xpand" [] (by decide),
   c9_banner_build_independent defaultBuild
     { version := "1.2.3", commit := "abc123", date := "2024-01-01" } "xpand" ["status"]
     (by decide)⟩

/-- C10: the two outputs are never confused. For every build triple of arbitrary strings
the version line differs from the banner, and for every argument list standard output is
the version line exactly when a first argument exists and is `--version`. -/
theorem c10_outputs_distinct (b : Build) (prog : String) (args : List String) :
    "xpand " ++ b.version ++ " (commit: " ++ b.commit ++ ", built: " ++ b.date ++ ")\n"
        ≠ specBanner
      ∧ ((run b prog args).stdout
            = "xpand " ++ b.version ++ " (commit: " ++ b.commit ++ ", built: " ++ b.date
                ++ ")\n"
          ↔ args.head? = some "--version") := by
  refine ⟨specVersionLine_ne_specBanner b, ?_⟩
  match args with
  | [] =>
    rw [run_noArgs]
    constructor
    · intro e
      exact absurd e.symm (specVersionLine_ne_specBanner b)
    · intro e
      simp at e
  | a :: rest =>
    by_cases h : a = "--version"
    · subst h
      rw [run_versionFlag]
      simp [specVersionLine]
    · rw [run_otherArg b prog a rest h]
      constructor
      · intro e
        exact absurd e.symm (specVersionLine_ne_specBanner b)
      · intro e
        simp at e
        exact absurd e h

end Xpand

